import Mathlib

set_option maxRecDepth 10000

/-!
Verification of the noRSI activity tracker and query handler.

A shallow embedding of `src/safety-tracker.c` and `src/query-handler.c`.

* C `int` values are modelled as `Int` (the program never exercises 32-bit
  overflow in the properties below; where a bound matters, it appears as an
  explicit hypothesis).
* The tracker's global `periods[]` array is modelled as a `List tracking_period`
  threaded through each function.
* C character buffers are modelled as `List Char` of the *filled* region
  (`in_len` / `out_len` bytes); the functions below mirror the pointer
  arithmetic of the C code on these lists.
-/

namespace Norsi

/-- Mirror of `struct tracking_period_config` from `src/safety-tracker.c`. -/
structure tracking_period_config where
  name : String
  limit_seconds : Int
  reset_seconds : Int
  break_seconds : Int
deriving Repr, DecidableEq

/-- Mirror of `struct tracking_period` from `src/safety-tracker.c`. -/
structure tracking_period where
  config : tracking_period_config
  active_seconds : Int
deriving Repr, DecidableEq

/-- The static `periods[]` configuration from `src/safety-tracker.c`:
micro (3*60 limit, 15 reset, 30 break), normal (45*60, 0, 10*60),
workday (4*60*60, 0, 8*60*60), each starting at `active_seconds = 0`. -/
def norsi_periods : List tracking_period :=
  [ { config := { name := "micro", limit_seconds := 3 * 60,
                  reset_seconds := 15, break_seconds := 30 },
      active_seconds := 0 },
    { config := { name := "normal", limit_seconds := 45 * 60,
                  reset_seconds := 0, break_seconds := 10 * 60 },
      active_seconds := 0 },
    { config := { name := "workday", limit_seconds := 4 * 60 * 60,
                  reset_seconds := 0, break_seconds := 8 * 60 * 60 },
      active_seconds := 0 } ]

/-- Embedding of `tracker_provide_idle_seconds` (`src/safety-tracker.c:113-141`): for each
period, if there is accumulated activity, clear it when either the early-reset
condition (`active < limit && reset_seconds > 0 && idle > reset_seconds`) or,
failing that, the break condition (`idle > break_seconds`) holds. -/
def tracker_provide_idle_seconds (idle_seconds : Int)
    (periods : List tracking_period) : List tracking_period :=
  periods.map fun period =>
    if period.active_seconds > 0 then
      if period.active_seconds < period.config.limit_seconds ∧
          period.config.reset_seconds > 0 ∧
          idle_seconds > period.config.reset_seconds then
        { period with active_seconds := 0 }
      else if idle_seconds > period.config.break_seconds then
        { period with active_seconds := 0 }
      else
        period
    else
      period

/-- Embedding of `tracker_provide_active_seconds` (`src/safety-tracker.c:150-157`): add the
delta to every period's accumulator. -/
def tracker_provide_active_seconds (active_seconds : Int)
    (periods : List tracking_period) : List tracking_period :=
  periods.map fun period =>
    { period with active_seconds := period.active_seconds + active_seconds }

/-- Embedding of `sprintf(readout, "%i", i)` from `src/safety-tracker.c`: the decimal
rendering of an `int`. -/
def sprintf_i (i : Int) : List Char :=
  (toString i).data

/-- The characters `strcat`-ed for one period inside the loop of
`tracker_get_status_json` (`src/safety-tracker.c:199-218`), including the
trailing comma appended after every entry. -/
def tracker_status_period_entry (period : tracking_period) : List Char :=
  "\x7b\"name\":\"".data ++ period.config.name.data ++ "\",\"safe\":".data ++
    (if period.active_seconds > period.config.limit_seconds then
      "false".data
    else
      "true".data) ++
    ",\"accumulated_seconds\":".data ++ sprintf_i period.active_seconds ++
    ",\"break_at\":".data ++ sprintf_i period.config.limit_seconds ++
    "\x7d,".data

/-- Embedding of `tracker_get_status_json` (`src/safety-tracker.c:189-225`): the contents of
the returned buffer. The C code truncates the buffer by one character
(`buff[len-1] = 0`, removing the final trailing comma) before appending the
closing bracket and newline; `List.dropLast` models that truncation. -/
def tracker_get_status_json (periods : List tracking_period) : List Char :=
  ("\x7b\"periods\":[".data ++
    (periods.map tracker_status_period_entry).flatten).dropLast ++
    "]\x7d\n".data

/-- Constant `QUERY_HANDLER_MAX_CLIENTS` from `src/query-handler.c`. -/
def QUERY_HANDLER_MAX_CLIENTS : Nat := 16

/-- Constant `QUERY_HANDLER_MAX_CLIENT_BUFFER` from `src/query-handler.c`. -/
def QUERY_HANDLER_MAX_CLIENT_BUFFER : Nat := 1024

/-- Mirror of `struct client_state` from `src/query-handler.c`, restricted to the filled
regions of the two buffers: `input` is the first `in_len` characters of `in`,
`out` the first `out_len` characters of `out` (so `in_len = input.length` and
`out_len = out.length`). -/
structure client_state where
  input : List Char
  out : List Char
deriving Repr, DecidableEq

/-- Embedding of `query_handler_message_ready` (`src/query-handler.c:308-320`): a complete
message is ready when a newline occurs in the filled input region. -/
def query_handler_message_ready (cs : client_state) : Bool :=
  cs.input.contains '\n'

/-- Embedding of `query_handler_handle_message` (`src/query-handler.c:328-372`): find the
first newline (`msg_len` stays 0 if there is none, as in the C code), compare
the message against "status" and "info", overwrite the output buffer with the
status JSON on "status" (`memcpy(cs->out, status, strlen(status));
cs->out_len = strlen(status)` — it replaces, it does not append), then shift
the remaining input down by `msg_len + 1` bytes. The tracker state `periods`
is the global state read by `tracker_get_status_json`. -/
def query_handler_handle_message (periods : List tracking_period)
    (cs : client_state) : client_state :=
  let msg_len := (cs.input.findIdx? (fun c => c = '\n')).getD 0
  let parse_buff := cs.input.take msg_len
  let out' :=
    if parse_buff = "status".data then
      tracker_get_status_json periods
    else
      cs.out
  { input := cs.input.drop (msg_len + 1), out := out' }

/-- The message-draining loop of `query_handler_run`
(`src/query-handler.c:513-515`): `while (query_handler_message_ready(i))
query_handler_handle_message(i);`. The loop consumes at least one input byte
per iteration, so `cs.input.length` bounds the number of iterations; the fuel
argument makes the recursion structural. -/
def query_handler_drain_loop (periods : List tracking_period) :
    Nat → client_state → client_state
  | 0, cs => cs
  | fuel + 1, cs =>
    if query_handler_message_ready cs then
      query_handler_drain_loop periods fuel
        (query_handler_handle_message periods cs)
    else
      cs

/-- Embedding of `query_handler_run`'s handling of all complete queued messages for one
connection in one tick (`src/query-handler.c:506-524`, message part). -/
def query_handler_process_messages (periods : List tracking_period)
    (cs : client_state) : client_state :=
  query_handler_drain_loop periods cs.input.length cs

/-- The `POLLIN` read branch of `query_handler_run`
(`src/query-handler.c:443-470`) for a read returning `data.length > 0` bytes:
the bytes are written at offset `in_len` of the physical buffer
(`read_to = &(cs->in[cs->in_len])`), but `in_len` is then *assigned* the read
count (`cs->in_len = read_count;`), so the new filled region is the first
`data.length` characters of the physical buffer, i.e. of the old filled
region followed by the new data. -/
def query_handler_read_step (cs : client_state) (data : List Char) :
    client_state :=
  { cs with input := (cs.input ++ data).take data.length }

/-- The `POLLOUT` write branch of `query_handler_run`
(`src/query-handler.c:474-504`) for a write of `write_count` bytes: on a full
write the output buffer is cleared (`out_len = 0`); on a partial write the
unsent remainder is shifted to the front. Both cases are `List.drop`. -/
def query_handler_write_step (cs : client_state) (write_count : Nat) :
    client_state :=
  { cs with out := cs.out.drop write_count }

/-- Embedding of `query_handler_current_client_count` (`src/query-handler.c:269-280`):
the number of slots of `conn_poll_fds` holding a non-negative fd. -/
def query_handler_current_client_count (conn_poll_fds : List Int) : Nat :=
  (conn_poll_fds.filter (fun fd => fd ≥ 0)).length

/-- Embedding of `query_handler_store_connection` (`src/query-handler.c:286-301`), its
effect on the `conn_poll_fds` slot table: the new fd replaces the first slot
equal to -1 (if any). -/
def query_handler_store_connection (fd : Int) :
    List Int → List Int
  | [] => []
  | slot :: rest =>
    if slot = -1 then
      fd :: rest
    else
      slot :: query_handler_store_connection fd rest

/-- The accept phase of `query_handler_run` (`src/query-handler.c:398-418`):
when the listener polls readable (`pending`) and the current client count is
below `QUERY_HANDLER_MAX_CLIENTS`, the pending connection is accepted (fd
`new_fd ≥ 0`) and stored; otherwise nothing is accepted and the attempt stays
queued in the OS backlog. Returns the new slot table and whether an accept
happened. -/
def query_handler_accept_phase (pending : Bool) (new_fd : Int)
    (conn_poll_fds : List Int) : List Int × Bool :=
  if pending ∧
      query_handler_current_client_count conn_poll_fds <
        QUERY_HANDLER_MAX_CLIENTS then
    (query_handler_store_connection new_fd conn_poll_fds, true)
  else
    (conn_poll_fds, false)

/-- The reset rule as the specification words it (§4.1): early reset when
`active_seconds > 0 ∧ active_seconds < limit_seconds ∧ reset_seconds > 0 ∧
idle_seconds > reset_seconds`; otherwise break reset when
`idle_seconds > break_seconds`; otherwise unchanged. -/
def spec_idle_reset_rule (idle_seconds : Int) (p : tracking_period) : Int :=
  if p.active_seconds > 0 ∧ p.active_seconds < p.config.limit_seconds ∧
      p.config.reset_seconds > 0 ∧ idle_seconds > p.config.reset_seconds then
    0
  else if idle_seconds > p.config.break_seconds then
    0
  else
    p.active_seconds

/-- A window with the micro configuration of the reset-priority example
(`reset_seconds = 15`, `break_seconds = 30`, `limit_seconds = 180`) and a
given accumulator value. -/
def micro_window (a : Int) : tracking_period :=
  { config := { name := "micro", limit_seconds := 180,
                reset_seconds := 15, break_seconds := 30 },
    active_seconds := a }

/-- One status-snapshot entry as the specification words it (§4.1/§6): the
fields `name`, `safe`, `accumulated_seconds`, `break_at` in the wire shape,
with `safe = true` if and only if `active_seconds ≤ limit_seconds`, and no
trailing separator. -/
def spec_status_entry (p : tracking_period) : List Char :=
  "\x7b\"name\":\"".data ++ p.config.name.data ++ "\",\"safe\":".data ++
    (if p.active_seconds ≤ p.config.limit_seconds then
      "true".data
    else
      "false".data) ++
    ",\"accumulated_seconds\":".data ++ sprintf_i p.active_seconds ++
    ",\"break_at\":".data ++ sprintf_i p.config.limit_seconds ++ "\x7d".data

/-- The status response as the specification words it (§6): a single
newline-terminated JSON line with one entry per configured window, in
configuration order, separated by commas. -/
def spec_status_json (periods : List tracking_period) : List Char :=
  "\x7b\"periods\":[".data ++
    List.intercalate (",".data) (periods.map spec_status_entry) ++
    "]\x7d\n".data

/-- The sequence of tracker states produced by a sequence of
`tracker_provide_idle_seconds` calls, starting from `ps` (the state before the
first call, then the state after each call in turn). -/
def tracker_idle_call_states (ps : List tracking_period) (ss : List Int) :
    List (List tracking_period) :=
  ss.scanl (fun st s => tracker_provide_idle_seconds s st) ps

/-- Bookkeeping state of one connection inside the read branch: the `in_len`
counter (a C `int`, so it can hold -1) and whether the slot's fd has been
closed. -/
structure read_branch_state where
  in_len : Int
  fd_closed : Bool
deriving Repr, DecidableEq

/-- Embedding of the full `POLLIN` read branch of `query_handler_run`
(`src/query-handler.c:443-470`), tracking the `in_len` bookkeeping for every
outcome of `read`. `read` returns `read_count`: -1 on error, 0 on peer
close, otherwise the number of bytes stored. The branch executes
`cs->in_len = read_count;` (line 449) *before* the `read_count == 0` and
`read_count == -1` checks, so the assignment stands in every case: on 0 the
connection is shut down and its fd cleared; on -1 the branch only logs and
continues to the next connection, leaving `in_len = -1`; on a positive count
the buffer contents are as in `query_handler_read_step` (which models only
that successful case). -/
def query_handler_read_branch (st : read_branch_state) (read_count : Int) :
    read_branch_state :=
  let st' := { st with in_len := read_count }
  if read_count = 0 then
    { st' with fd_closed := true }
  else
    st'

/-! ## Theorems -/

/-- Each window of `tracker_provide_idle_seconds`'s output, pointwise: with a
non-negative accumulator, the output accumulator follows the spec's two-branch
priority rule. -/
theorem idle_step_spec (idle : Int) (p : tracking_period)
    (hp : 0 ≤ p.active_seconds) :
    (if p.active_seconds > 0 then
      if p.active_seconds < p.config.limit_seconds ∧
          p.config.reset_seconds > 0 ∧
          idle > p.config.reset_seconds then
        { p with active_seconds := 0 }
      else if idle > p.config.break_seconds then
        { p with active_seconds := 0 }
      else
        p
    else
      p).active_seconds = spec_idle_reset_rule idle p := by
  unfold spec_idle_reset_rule
  split_ifs <;> simp_all <;> omega

/-- The config of each window is unchanged by `tracker_provide_idle_seconds`. -/
theorem idle_step_config (idle : Int) (p : tracking_period) :
    (if p.active_seconds > 0 then
      if p.active_seconds < p.config.limit_seconds ∧
          p.config.reset_seconds > 0 ∧
          idle > p.config.reset_seconds then
        { p with active_seconds := 0 }
      else if idle > p.config.break_seconds then
        { p with active_seconds := 0 }
      else
        p
    else
      p).config = p.config := by
  split_ifs <;> rfl

/-- C1: one `provide_idle_seconds(idle_seconds)` call treats every window
independently: it zeroes the accumulator when `active_seconds > 0 ∧
active_seconds < limit_seconds ∧ reset_seconds > 0 ∧ idle_seconds >
reset_seconds` (early reset), otherwise zeroes it when `idle_seconds >
break_seconds` (break reset), otherwise leaves it unchanged — and on the
micro configuration (`reset=15, break=30, limit=180`), active 50 with idle 16
resets, active 200 with idle 16 is unchanged, and active 200 with idle 31
resets. -/
theorem C1_idle_reset_priority (idle : Int) (ps : List tracking_period)
    (hidle : 0 ≤ idle) (hps : ∀ p ∈ ps, 0 ≤ p.active_seconds) :
    List.Forall₂
      (fun p q => q.config = p.config ∧
        q.active_seconds = spec_idle_reset_rule idle p)
      ps (tracker_provide_idle_seconds idle ps) ∧
    tracker_provide_idle_seconds 16 [micro_window 50] = [micro_window 0] ∧
    tracker_provide_idle_seconds 16 [micro_window 200] = [micro_window 200] ∧
    tracker_provide_idle_seconds 31 [micro_window 200] = [micro_window 0] := by
  refine ⟨?_, by decide, by decide, by decide⟩
  unfold tracker_provide_idle_seconds
  rw [List.forall₂_map_right_iff]
  rw [List.forall₂_same]
  intro p hp
  exact ⟨idle_step_config idle p, idle_step_spec idle p (hps p hp)⟩

/-- Witness for C1 at `idle = 16`, a single micro window with accumulator
50. -/
theorem C1_witness :
    (0 : Int) ≤ 16 ∧ (∀ p ∈ [micro_window 50], 0 ≤ p.active_seconds) ∧
    List.Forall₂
      (fun p q => q.config = p.config ∧
        q.active_seconds = spec_idle_reset_rule 16 p)
      [micro_window 50] (tracker_provide_idle_seconds 16 [micro_window 50]) :=
  ⟨by decide, by decide,
    (C1_idle_reset_priority 16 [micro_window 50] (by decide) (by decide)).1⟩

/-- Pointwise `List.Forall₂` of the accumulator order composes transitively. -/
theorem forall2_active_le_trans :
    ∀ {as bs cs : List tracking_period},
      List.Forall₂ (fun p q => p.active_seconds ≤ q.active_seconds) as bs →
      List.Forall₂ (fun p q => p.active_seconds ≤ q.active_seconds) bs cs →
      List.Forall₂ (fun p q => p.active_seconds ≤ q.active_seconds) as cs
  | _, _, _, List.Forall₂.nil, List.Forall₂.nil => List.Forall₂.nil
  | _, _, _, List.Forall₂.cons h1 t1, List.Forall₂.cons h2 t2 =>
    List.Forall₂.cons (le_trans h1 h2) (forall2_active_le_trans t1 t2)

/-- One `tracker_provide_active_seconds` call with a non-negative delta never
decreases any accumulator. -/
theorem provide_active_le (n : Int) (hn : 0 ≤ n) (ps : List tracking_period) :
    List.Forall₂ (fun p q => p.active_seconds ≤ q.active_seconds) ps
      (tracker_provide_active_seconds n ps) := by
  unfold tracker_provide_active_seconds
  rw [List.forall₂_map_right_iff, List.forall₂_same]
  intro p _
  simp only
  omega

/-- C3: `provide_active_seconds(n)` with `n > 0` adds exactly `n` to every
window's accumulator (preserving configs), and any sequence of such calls
with positive deltas never decreases any window's accumulator. -/
theorem C3_monotone_accumulation (n : Int) (ps : List tracking_period)
    (hn : 0 < n) :
    List.Forall₂
      (fun p q => q.config = p.config ∧
        q.active_seconds = p.active_seconds + n)
      ps (tracker_provide_active_seconds n ps) ∧
    ∀ ds : List Int, (∀ d ∈ ds, 0 < d) →
      List.Forall₂ (fun p q => p.active_seconds ≤ q.active_seconds) ps
        (ds.foldl (fun st d => tracker_provide_active_seconds d st) ps) := by
  constructor
  · unfold tracker_provide_active_seconds
    rw [List.forall₂_map_right_iff, List.forall₂_same]
    exact fun p _ => ⟨rfl, rfl⟩
  · intro ds
    induction ds generalizing ps with
    | nil =>
      intro _
      simpa using List.forall₂_same.mpr (fun p _ => le_refl p.active_seconds)
    | cons d ds ih =>
      intro hds
      simp only [List.foldl_cons]
      exact forall2_active_le_trans
        (provide_active_le d (le_of_lt (hds d (by simp))) ps)
        (ih (tracker_provide_active_seconds d ps)
          (fun e he => hds e (by simp [he])))

/-- Witness for C3 at `n = 1` on the initial configuration. -/
theorem C3_witness :
    (0 : Int) < 1 ∧
    List.Forall₂
      (fun p q => q.config = p.config ∧
        q.active_seconds = p.active_seconds + 1)
      norsi_periods (tracker_provide_active_seconds 1 norsi_periods) :=
  ⟨by decide, (C3_monotone_accumulation 1 norsi_periods (by decide)).1⟩

/-- C10 fails as stated: `tracker_provide_active_seconds` has no boundary
check, so the negative argument -5 changes the tracker state (every
accumulator drops from 0 to -5). -/
theorem C10_counterexample :
    tracker_provide_active_seconds (-5) norsi_periods ≠ norsi_periods := by
  decide

/-- C10 amended: a negative argument to `provide_idle_seconds` leaves every
window unchanged (all of its threshold comparisons fail, given the
non-negative reset/break configuration the program uses), but
`provide_active_seconds` performs no boundary check: a negative argument is
added to every window's accumulator, decreasing it. -/
theorem C10_negative_input (s : Int) (ps : List tracking_period) (hs : s < 0)
    (hcfg : ∀ p ∈ ps, 0 ≤ p.config.reset_seconds ∧
      0 ≤ p.config.break_seconds) :
    tracker_provide_idle_seconds s ps = ps ∧
    List.Forall₂
      (fun p q => q.config = p.config ∧
        q.active_seconds = p.active_seconds + s)
      ps (tracker_provide_active_seconds s ps) := by
  constructor
  · unfold tracker_provide_idle_seconds
    have hid : ∀ p ∈ ps,
        (if p.active_seconds > 0 then
          if p.active_seconds < p.config.limit_seconds ∧
              p.config.reset_seconds > 0 ∧
              s > p.config.reset_seconds then
            { p with active_seconds := 0 }
          else if s > p.config.break_seconds then
            { p with active_seconds := 0 }
          else
            p
        else
          p) = id p := by
      intro p hp
      have h1 := (hcfg p hp).1
      have h2 := (hcfg p hp).2
      split_ifs with ha hb hc
      · exact absurd hb.2.2 (by omega)
      · exact absurd hc (by omega)
      · rfl
      · rfl
    rw [List.map_congr_left hid, List.map_id]
  · unfold tracker_provide_active_seconds
    rw [List.forall₂_map_right_iff, List.forall₂_same]
    exact fun p _ => ⟨rfl, rfl⟩

/-- Witness for the amended C10 at argument -5 on the initial
configuration. -/
theorem C10_witness :
    ((-5 : Int) < 0) ∧
    (∀ p ∈ norsi_periods, 0 ≤ p.config.reset_seconds ∧
      0 ≤ p.config.break_seconds) ∧
    tracker_provide_idle_seconds (-5) norsi_periods = norsi_periods :=
  ⟨by decide, by decide,
    (C10_negative_input (-5) norsi_periods (by decide) (by decide)).1⟩

/-- One `tracker_provide_idle_seconds` call, for any idle argument, leaves
each accumulator equal to its previous value or zero. -/
theorem idle_step_same_or_zero (s : Int) (ps : List tracking_period) :
    List.Forall₂
      (fun p q => q.active_seconds = p.active_seconds ∨
        q.active_seconds = 0)
      ps (tracker_provide_idle_seconds s ps) := by
  unfold tracker_provide_idle_seconds
  rw [List.forall₂_map_right_iff, List.forall₂_same]
  intro p _
  split_ifs <;> simp

/-- Consecutive states of a `scanl` satisfy `R` whenever every step does. -/
theorem chain_scanl {α β : Type} (f : β → α → β) (R : β → β → Prop)
    (hf : ∀ b a, R b (f b a)) :
    ∀ (l : List α) (b : β), List.Chain' R (List.scanl f b l)
  | [], _ => by simp
  | a :: l, b => by
    rw [List.scanl_cons]
    refine List.chain'_cons'.mpr ⟨?_, chain_scanl f R hf l (f b a)⟩
    intro y hy
    cases l <;> simp [List.scanl] at hy <;> simpa [hy] using hf b a

/-- C7: along any sequence of `provide_idle_seconds` calls with
non-decreasing, non-negative arguments, each call leaves every window's
accumulator equal to its previous value or zero — it never increases. -/
theorem C7_idle_never_increases (ss : List Int) (ps : List tracking_period)
    (hmono : ss.Chain' (· ≤ ·)) (hnn : ∀ s ∈ ss, 0 ≤ s) :
    List.Chain'
      (fun st st' =>
        List.Forall₂
          (fun p q => q.active_seconds = p.active_seconds ∨
            q.active_seconds = 0)
          st st')
      (tracker_idle_call_states ps ss) := by
  unfold tracker_idle_call_states
  exact chain_scanl _ _ (fun st s => idle_step_same_or_zero s st) ss ps

/-- Witness for C7: the calls `provide_idle_seconds(16)` then
`provide_idle_seconds(31)` on a single micro window accumulated to 50. -/
theorem C7_witness :
    ([16, 31] : List Int).Chain' (· ≤ ·) ∧
    (∀ s ∈ ([16, 31] : List Int), 0 ≤ s) ∧
    List.Chain'
      (fun st st' =>
        List.Forall₂
          (fun p q => q.active_seconds = p.active_seconds ∨
            q.active_seconds = 0)
          st st')
      (tracker_idle_call_states [micro_window 50] [16, 31]) :=
  ⟨by norm_num [List.chain'_cons], by decide,
    C7_idle_never_increases [16, 31] [micro_window 50]
      (by norm_num [List.chain'_cons]) (by decide)⟩

/-- The loop body of `tracker_get_status_json` emits exactly the
specification's entry followed by the separator comma. -/
theorem status_entry_eq (p : tracking_period) :
    tracker_status_period_entry p = spec_status_entry p ++ [','] := by
  unfold tracker_status_period_entry spec_status_entry
  have hcomma : ("\x7d,".data : List Char) = "\x7d".data ++ [','] := by decide
  rcases le_or_lt p.active_seconds p.config.limit_seconds with h | h
  · rw [if_neg (not_lt.mpr h), if_pos h, hcomma]
    simp [List.append_assoc]
  · rw [if_pos h, if_neg (not_le.mpr h), hcomma]
    simp [List.append_assoc]

/-- Dropping the final character of comma-terminated entries, concatenated,
yields the comma-separated join of the entries. -/
theorem flatten_comma_dropLast (l : List (List Char)) (h : l ≠ []) :
    ((l.map (fun x => x ++ [','])).flatten).dropLast =
      List.intercalate [','] l := by
  induction l with
  | nil => exact absurd rfl h
  | cons x rest ih =>
    cases rest with
    | nil =>
      simp [List.intercalate]
    | cons y rest' =>
      have hne : (((y :: rest').map (fun x => x ++ [','])).flatten) ≠ [] := by
        simp
      rw [List.map_cons, List.flatten_cons,
        List.dropLast_append_of_ne_nil _ hne, ih (by simp),
        List.intercalate, List.intercalate, List.intersperse_cons_cons,
        List.flatten_cons, List.flatten_cons]
      simp [List.append_assoc]

/-- The comma separator of the wire format, as character data. -/
theorem comma_data : (",".data : List Char) = [','] := by decide

/-- C2: for every (non-empty) window state, the buffer built by
`tracker_get_status_json` is exactly the specification's wire format: a
single newline-terminated JSON line with one entry per window in
configuration order, `accumulated_seconds` = the window's accumulator,
`break_at` = its limit, and `safe` true iff `active_seconds ≤ limit_seconds`;
after accumulating 200 seconds, micro reports safe=false while normal and
workday report safe=true, each with accumulated_seconds=200. -/
theorem C2_status_json (ps : List tracking_period) (h : ps ≠ []) :
    tracker_get_status_json ps = spec_status_json ps ∧
    tracker_get_status_json
        (tracker_provide_active_seconds 200 norsi_periods) =
      ("\x7b\"periods\":[\x7b\"name\":\"micro\",\"safe\":false,\"accumulated_seconds\":200,\"break_at\":180\x7d,\x7b\"name\":\"normal\",\"safe\":true,\"accumulated_seconds\":200,\"break_at\":2700\x7d,\x7b\"name\":\"workday\",\"safe\":true,\"accumulated_seconds\":200,\"break_at\":14400\x7d]\x7d\n").data := by
  refine ⟨?_, by decide⟩
  unfold tracker_get_status_json spec_status_json
  have hmap : ps.map tracker_status_period_entry =
      ps.map (fun p => spec_status_entry p ++ [',']) :=
    List.map_congr_left (fun p _ => status_entry_eq p)
  have hflat : (ps.map (fun p => spec_status_entry p ++ [','])).flatten ≠ [] := by
    cases ps with
    | nil => exact absurd rfl h
    | cons p rest => simp
  rw [hmap, List.dropLast_append_of_ne_nil _ hflat]
  rw [show (ps.map (fun p => spec_status_entry p ++ [','])) =
      ((ps.map spec_status_entry).map (fun x => x ++ [','])) by
    simp [List.map_map]]
  rw [flatten_comma_dropLast _ (by simpa using h), comma_data]

/-- Witness for C2 at the state reached by accumulating 200 seconds from the
initial configuration. -/
theorem C2_witness :
    tracker_provide_active_seconds 200 norsi_periods ≠ [] ∧
    tracker_get_status_json (tracker_provide_active_seconds 200 norsi_periods)
      = spec_status_json (tracker_provide_active_seconds 200 norsi_periods) :=
  ⟨by decide,
    (C2_status_json (tracker_provide_active_seconds 200 norsi_periods)
      (by decide)).1⟩

/-- The input remaining after `query_handler_handle_message` is the old input
with the first message and its newline dropped. -/
theorem handle_message_input (periods : List tracking_period)
    (cs : client_state) :
    (query_handler_handle_message periods cs).input =
      cs.input.drop
        (((cs.input.findIdx? (fun c => c = '\n')).getD 0) + 1) := rfl

/-- After the drain loop runs with fuel at least the input length, no
complete message remains in the input buffer. -/
theorem drain_loop_no_message (periods : List tracking_period) :
    ∀ (fuel : Nat) (cs : client_state), cs.input.length ≤ fuel →
      query_handler_message_ready
        (query_handler_drain_loop periods fuel cs) = false
  | 0, cs, hle => by
    have : cs.input = [] := List.length_eq_zero.mp (Nat.le_zero.mp hle)
    simp [query_handler_drain_loop, query_handler_message_ready, this]
  | fuel + 1, cs, hle => by
    unfold query_handler_drain_loop
    by_cases hr : query_handler_message_ready cs
    · rw [if_pos hr]
      refine drain_loop_no_message periods fuel _ ?_
      have hne : cs.input ≠ [] := by
        intro hnil
        simp [query_handler_message_ready, hnil] at hr
      rw [handle_message_input, List.length_drop]
      have : 0 < cs.input.length := List.length_pos.mpr hne
      omega
    · rw [if_neg hr]
      exact eq_false_of_ne_true hr

/-- C4 fails as stated: with the two queued requests `"status\nstatus\n"`,
the handler does not append the two responses in FIFO order — the second
`memcpy` overwrites the first, leaving a single copy of the status JSON in
the output buffer. -/
theorem C4_counterexample :
    (query_handler_process_messages norsi_periods
        ⟨("status\nstatus\n").data, []⟩).out ≠
      tracker_get_status_json norsi_periods ++
        tracker_get_status_json norsi_periods ∧
    (query_handler_process_messages norsi_periods
        ⟨("status\nstatus\n").data, []⟩).out =
      tracker_get_status_json norsi_periods := by
  exact ⟨by decide, by decide⟩

/-- C4 amended: when the input buffer holds k ≥ 1 complete newline-terminated
requests, the handler processes all of them before yielding (no complete
message remains afterwards), but each response-producing request *overwrites*
the output buffer rather than appending, so the buffer ends holding only the
most recent response; an input of `"status\ninfo\n"` still results in exactly
one status-shaped JSON response in the output buffer and zero bytes for
`info`. -/
theorem C4_process_all_messages :
    (∀ (periods : List tracking_period) (cs : client_state),
      query_handler_message_ready
        (query_handler_process_messages periods cs) = false) ∧
    query_handler_process_messages norsi_periods
        ⟨("status\ninfo\n").data, []⟩ =
      ⟨[], tracker_get_status_json norsi_periods⟩ := by
  refine ⟨fun periods cs => ?_, by decide⟩
  exact drain_loop_no_message periods cs.input.length cs (le_refl _)

/-- C5 fails on the code: with 4 bytes `"stat"` already buffered, a read
delivering the 3 bytes `"us\n"` leaves `in_len = 3` — the filled region
becomes `"sta"` (the read lands at offset 4 of the physical buffer but
`cs->in_len = read_count` discards the bookkeeping of the old bytes) —
instead of the 7 appended bytes `"status\n"` the claim (and the code's own
`read_to`/`max_read` computation) calls for. -/
theorem C5_read_drops_buffered_bytes :
    (query_handler_read_step ⟨("stat").data, []⟩ ("us\n").data).input =
      ("sta").data ∧
    (query_handler_read_step ⟨("stat").data, []⟩ ("us\n").data).input.length
      ≠ ("stat").data.length + ("us\n").data.length := by
  exact ⟨by decide, by decide⟩

/-- C6: consuming a framed message of length L (the first newline sits at
index L) from an input buffer of L+1+K bytes leaves exactly the K unconsumed
bytes, shifted to the front of the buffer, with `input_length = K`. -/
theorem C6_buffer_shift (periods : List tracking_period) (cs : client_state)
    (L K : Nat)
    (hfind : cs.input.findIdx? (fun c => c = '\n') = some L)
    (hlen : cs.input.length = L + 1 + K) :
    (query_handler_handle_message periods cs).input =
      cs.input.drop (L + 1) ∧
    (query_handler_handle_message periods cs).input.length = K := by
  rw [handle_message_input, hfind]
  exact ⟨rfl, by
    simp only [Option.getD_some]
    rw [List.length_drop, hlen]
    omega⟩

/-- Witness for C6: the 9-byte buffer `"status\nin"` (L = 6, K = 2). -/
theorem C6_witness :
    (("status\nin").data.findIdx? (fun c => c = '\n') = some 6) ∧
    ("status\nin").data.length = 6 + 1 + 2 ∧
    (query_handler_handle_message norsi_periods
        ⟨("status\nin").data, []⟩).input =
      ("status\nin").data.drop (6 + 1) ∧
    (query_handler_handle_message norsi_periods
        ⟨("status\nin").data, []⟩).input.length = 2 :=
  ⟨by decide, by decide,
    (C6_buffer_shift norsi_periods ⟨("status\nin").data, []⟩ 6 2
      (by decide) (by decide)).1,
    (C6_buffer_shift norsi_periods ⟨("status\nin").data, []⟩ 6 2
      (by decide) (by decide)).2⟩

/-- Storing a connection fills one slot; it never grows the slot
table. -/
theorem store_connection_length (fd : Int) :
    ∀ slots : List Int,
      (query_handler_store_connection fd slots).length = slots.length
  | [] => rfl
  | slot :: rest => by
    unfold query_handler_store_connection
    split_ifs <;> simp [store_connection_length fd rest]

/-- The client count never exceeds the slot-table size. -/
theorem client_count_le_length (slots : List Int) :
    query_handler_current_client_count slots ≤ slots.length :=
  List.length_filter_le _ slots

/-- C8: with the 16-slot table of `conn_poll_fds`, at most 16 clients are
counted before and after the accept phase of a tick; a connection is accepted
only when the count is strictly below 16; and when 16 clients are connected a
pending 17th attempt is not accepted — the slot table is untouched and the
attempt stays queued in the OS backlog until a slot frees. -/
theorem C8_connection_capacity (slots : List Int) (pending : Bool)
    (new_fd : Int) (hlen : slots.length = QUERY_HANDLER_MAX_CLIENTS) :
    query_handler_current_client_count slots ≤ 16 ∧
    query_handler_current_client_count
        (query_handler_accept_phase pending new_fd slots).1 ≤ 16 ∧
    ((query_handler_accept_phase pending new_fd slots).2 = true →
      query_handler_current_client_count slots < 16) ∧
    (query_handler_current_client_count slots = 16 →
      query_handler_accept_phase pending new_fd slots = (slots, false)) := by
  have hle : query_handler_current_client_count slots ≤ 16 := by
    have := client_count_le_length slots
    rw [hlen] at this
    exact this
  refine ⟨hle, ?_, ?_, ?_⟩
  · unfold query_handler_accept_phase
    split_ifs with hcond
    · calc query_handler_current_client_count
            (query_handler_store_connection new_fd slots)
          ≤ (query_handler_store_connection new_fd slots).length :=
            client_count_le_length _
        _ = slots.length := store_connection_length new_fd slots
        _ = 16 := hlen
    · exact hle
  · unfold query_handler_accept_phase
    split_ifs with hcond
    · exact fun _ => hcond.2
    · simp
  · intro hfull
    unfold query_handler_accept_phase
    rw [if_neg]
    intro hcond
    rw [hfull] at hcond
    exact absurd hcond.2 (by simp [QUERY_HANDLER_MAX_CLIENTS])

/-- Witness for C8: a full table of 16 connected fds with a pending
attempt. -/
theorem C8_witness :
    (List.replicate 16 (3 : Int)).length = QUERY_HANDLER_MAX_CLIENTS ∧
    (query_handler_current_client_count (List.replicate 16 (3 : Int)) = 16 →
      query_handler_accept_phase true 99 (List.replicate 16 (3 : Int)) =
        (List.replicate 16 (3 : Int), false)) :=
  ⟨by decide,
    (C8_connection_capacity (List.replicate 16 (3 : Int)) true 99
      (by decide)).2.2.2⟩

/-- The decimal rendering of a C `int` (32-bit range) takes at most 11
characters (10 digits plus sign). -/
theorem sprintf_i_length (a : Int) (h1 : -(2 ^ 31) ≤ a) (h2 : a < 2 ^ 31) :
    (sprintf_i a).length ≤ 11 := by
  unfold sprintf_i
  cases a with
  | ofNat m =>
    have hm : m < 10 ^ 10 := by
      have : (m : Int) < 2 ^ 31 := h2
      have : m < 2 ^ 31 := by exact_mod_cast this
      omega
    show (toString (Int.ofNat m)).data.length ≤ 11
    have heq : toString (Int.ofNat m) = Nat.repr m := rfl
    rw [heq]
    have hr := Nat.repr_length m 10 (by norm_num) hm
    calc (Nat.repr m).data.length = (Nat.repr m).length := rfl
      _ ≤ 10 := hr
      _ ≤ 11 := by omega
  | negSucc m =>
    have hm : m + 1 < 10 ^ 10 := by
      have : -(2 ^ 31 : Int) ≤ Int.negSucc m := h1
      rw [Int.negSucc_eq] at this
      have : (m : Int) + 1 ≤ 2 ^ 31 := by omega
      have : m + 1 ≤ 2 ^ 31 := by exact_mod_cast this
      omega
    show (toString (Int.negSucc m)).data.length ≤ 11
    have heq : toString (Int.negSucc m) = "-" ++ Nat.repr (m + 1) := rfl
    rw [heq]
    have hr := Nat.repr_length (m + 1) 10 (by norm_num) hm
    have hone : ("-" : String).length = 1 := by decide
    calc ("-" ++ Nat.repr (m + 1)).data.length
        = ("-" ++ Nat.repr (m + 1)).length := rfl
      _ = ("-" : String).length + (Nat.repr (m + 1)).length :=
        String.length_append _ _
      _ ≤ 11 := by omega

/-- Length bound for one status entry in terms of its variable parts. -/
theorem status_entry_length (p : tracking_period) :
    (tracker_status_period_entry p).length ≤
      60 + p.config.name.length + (sprintf_i p.active_seconds).length +
        (sprintf_i p.config.limit_seconds).length := by
  have l8 : p.config.name.data.length = p.config.name.length := rfl
  unfold tracker_status_period_entry
  split_ifs
  · simp only [List.length_append, List.length_cons, List.length_nil]
    omega
  · simp only [List.length_append, List.length_cons, List.length_nil]
    omega

/-- The status JSON for any state whose windows carry the program's three
configurations and 32-bit accumulator values fits in far less than one
1024-byte client buffer. -/
theorem status_json_length (ps : List tracking_period)
    (hcfg : List.Forall₂ (fun p q => p.config = q.config) ps norsi_periods)
    (hb : ∀ p ∈ ps, -(2 ^ 31) ≤ p.active_seconds ∧
      p.active_seconds < 2 ^ 31) :
    (tracker_get_status_json ps).length ≤ 1024 := by
  simp only [norsi_periods] at hcfg
  rw [List.forall₂_cons_right_iff] at hcfg
  obtain ⟨p1, ps1, h1, hcfg, rfl⟩ := hcfg
  rw [List.forall₂_cons_right_iff] at hcfg
  obtain ⟨p2, ps2, h2, hcfg, rfl⟩ := hcfg
  rw [List.forall₂_cons_right_iff] at hcfg
  obtain ⟨p3, ps3, h3, hcfg, rfl⟩ := hcfg
  rw [List.forall₂_nil_right_iff] at hcfg
  subst hcfg
  have hb1 := hb p1 (by simp)
  have hb2 := hb p2 (by simp)
  have hb3 := hb p3 (by simp)
  have ha1 := sprintf_i_length p1.active_seconds hb1.1 hb1.2
  have ha2 := sprintf_i_length p2.active_seconds hb2.1 hb2.2
  have ha3 := sprintf_i_length p3.active_seconds hb3.1 hb3.2
  have hn1 : p1.config.name.length = 5 := by rw [h1]; decide
  have hn2 : p2.config.name.length = 6 := by rw [h2]; decide
  have hn3 : p3.config.name.length = 7 := by rw [h3]; decide
  have hl1 : (sprintf_i p1.config.limit_seconds).length = 3 := by
    rw [h1]; decide
  have hl2 : (sprintf_i p2.config.limit_seconds).length = 4 := by
    rw [h2]; decide
  have hl3 : (sprintf_i p3.config.limit_seconds).length = 5 := by
    rw [h3]; decide
  have he1 := status_entry_length p1
  have he2 := status_entry_length p2
  have he3 := status_entry_length p3
  unfold tracker_get_status_json
  simp only [List.map_cons, List.map_nil, List.flatten_cons, List.flatten_nil,
    List.length_append, List.length_dropLast, List.append_nil,
    List.length_cons, List.length_nil]
  omega

/-- On the successful paths the buffer bounds do hold: a read delivering
bytes within the remaining input capacity keeps the filled input region
within 1024 bytes; consuming a ready message only shrinks the filled input
region; the status JSON queued for a window state with the program's
configurations and 32-bit accumulators fits within the 1024-byte output
buffer, so message handling keeps the output within capacity; and a write of
at most the pending bytes leaves exactly the unsent remainder, still within
capacity. This does not extend to every read: see the read-error path below
(`query_handler_read_branch`), where the claimed invariant fails. -/
theorem successful_ops_buffer_bounds (cs : client_state) (data : List Char)
    (ps : List tracking_period) (write_count : Nat)
    (hin : cs.input.length ≤ QUERY_HANDLER_MAX_CLIENT_BUFFER)
    (hout : cs.out.length ≤ QUERY_HANDLER_MAX_CLIENT_BUFFER)
    (hdata : data.length ≤ QUERY_HANDLER_MAX_CLIENT_BUFFER - cs.input.length)
    (hwc : write_count ≤ cs.out.length)
    (hcfg : List.Forall₂ (fun p q => p.config = q.config) ps norsi_periods)
    (hb : ∀ p ∈ ps, -(2 ^ 31) ≤ p.active_seconds ∧
      p.active_seconds < 2 ^ 31) :
    (query_handler_read_step cs data).input.length ≤
      QUERY_HANDLER_MAX_CLIENT_BUFFER ∧
    (query_handler_handle_message ps cs).input.length ≤ cs.input.length ∧
    (query_handler_handle_message ps cs).input.length ≤
      QUERY_HANDLER_MAX_CLIENT_BUFFER ∧
    (tracker_get_status_json ps).length ≤ QUERY_HANDLER_MAX_CLIENT_BUFFER ∧
    (query_handler_handle_message ps cs).out.length ≤
      QUERY_HANDLER_MAX_CLIENT_BUFFER ∧
    (query_handler_write_step cs write_count).out.length =
      cs.out.length - write_count ∧
    (query_handler_write_step cs write_count).out.length ≤
      QUERY_HANDLER_MAX_CLIENT_BUFFER := by
  have hjson : (tracker_get_status_json ps).length ≤ 1024 :=
    status_json_length ps hcfg hb
  have hbuf : QUERY_HANDLER_MAX_CLIENT_BUFFER = 1024 := rfl
  refine ⟨?_, ?_, ?_, ?_, ?_, ?_, ?_⟩
  · unfold query_handler_read_step
    simp only [List.length_take]
    omega
  · rw [handle_message_input, List.length_drop]
    omega
  · rw [handle_message_input, List.length_drop]
    omega
  · omega
  · unfold query_handler_handle_message
    simp only
    split_ifs
    · omega
    · exact hout
  · unfold query_handler_write_step
    simp only [List.length_drop]
  · unfold query_handler_write_step
    simp only [List.length_drop]
    omega

/-- C9 fails on the code: when `read` returns -1 (a transient error) for a
connection with, say, 5 buffered bytes, the unconditional assignment
`cs->in_len = read_count` at `src/query-handler.c:449` runs before the
`read_count == -1` check at line 457, and that branch then only logs and
continues — the connection survives the tick with `in_len = -1`, violating
the claimed `0 <= input_length` invariant, and the next tick would compute
`max_read = 1024 - (-1) = 1025`, one byte beyond the buffer's capacity. -/
theorem C9_read_error_in_len_negative :
    query_handler_read_branch
        { in_len := 5, fd_closed := false } (-1) =
      { in_len := -1, fd_closed := false } ∧
    ¬(0 ≤ (query_handler_read_branch
        { in_len := 5, fd_closed := false } (-1)).in_len) ∧
    (QUERY_HANDLER_MAX_CLIENT_BUFFER : Int) -
      (query_handler_read_branch
        { in_len := 5, fd_closed := false } (-1)).in_len = 1025 := by
  exact ⟨by decide, by decide, by decide⟩

end Norsi
